import Mathlib

/-!
Verification of the task-classification-and-routing dispatcher in
`mcp-subagent-isolation/solution-examples.py`.

The Python file contains two dispatchers:
* Solution 1 (`route_task`): lower-cases the task string, tests substring
  containment against fixed keyword lists in a fixed if/elif order
  (browser, filesystem, database, general default) and opens one
  `ClaudeSDKClient` session with the branch-specific `ClaudeAgentOptions`.
* Solution 4 (`AgentOrchestrator.analyze_task` / `execute_task` /
  `execute_multiple_tasks`): same shape with a slightly different browser
  keyword list ("web" instead of "web scraping") and a
  category/complexity/tools analysis record.

Python strings are embedded as Lean `String`; Python's `needle in hay`
substring test is embedded as `pyIn`, and `str.lower` as `pyLower`
(character-wise ASCII lower-casing, which agrees with Python's `str.lower`
on the ASCII fragment all keywords and example inputs live in).  The
external agent runtime's response stream is embedded as a list of events
(`StreamItem`): each event either yields a message or raises an error, as
an async generator does; collecting `[msg async for msg in ...]` is
embedded as `collectResponse`, which discards the accumulator when an
event raises.  `ClaudeAgentOptions` keeps the three fields the source
passes: `mcp_servers` (a name-to-descriptor association list),
`system_prompt` and `allowed_tools` (both optional keyword arguments).
-/

/-- `takesLead nee hay` is true when `nee` is a leading segment of `hay`
(character-wise prefix test used by the substring scan). -/
def takesLead : List Char → List Char → Bool
  | [], _ => true
  | _ :: _, [] => false
  | a :: as, b :: bs => (a == b) && takesLead as bs

/-- `subIn nee hay` is true when `nee` occurs contiguously inside `hay`:
the embedding of Python's `nee in hay` on the underlying character lists. -/
def subIn : List Char → List Char → Bool
  | nee, [] => nee.isEmpty
  | nee, h :: t => takesLead nee (h :: t) || subIn nee t

/-- Embedding of Python's `nee in hay` substring test on strings. -/
def pyIn (nee hay : String) : Bool :=
  subIn nee.data hay.data

/-- Embedding of Python's `str.lower` (ASCII fragment): lower-case every
character. -/
def pyLower (s : String) : String :=
  ⟨s.data.map Char.toLower⟩

/-- An external tool-server descriptor: `command`, `args`, `env`, exactly
the keys of the config dicts in the source.  Forwarded opaquely. -/
structure ServerConfig where
  command : String
  args : List String
  env : List (String × String)
deriving DecidableEq, Repr

/-- The fields of `ClaudeAgentOptions` the source passes: the MCP server
map (as an ordered association list), and the optional `system_prompt` and
`allowed_tools` keyword arguments (`none` when the source omits them). -/
structure ClaudeAgentOptions where
  mcp_servers : List (String × ServerConfig)
  system_prompt : Option String := none
  allowed_tools : Option (List String) := none
deriving DecidableEq, Repr

/-- `filesystem_config` from solution 1 (also
`AgentOrchestrator.filesystem_config`, which is identical). -/
def filesystem_config : ServerConfig :=
  { command := "npx"
    args := ["-y", "@modelcontextprotocol/server-filesystem"]
    env := [("ALLOWED_PATHS", "/home/user/projects")] }

/-- `playwright_config` from solution 1. -/
def playwright_config : ServerConfig :=
  { command := "npx"
    args := ["-y", "@modelcontextprotocol/server-playwright"]
    env := [] }

/-- `database_config` from solution 1 (also
`AgentOrchestrator.database_config`, which is identical). -/
def database_config : ServerConfig :=
  { command := "npx"
    args := ["-y", "@modelcontextprotocol/server-postgres"]
    env := [("DATABASE_URL", "postgresql://localhost/mydb")] }

/-- `AgentOrchestrator.browser_config` (identical to `playwright_config`). -/
def browser_config : ServerConfig :=
  { command := "npx"
    args := ["-y", "@modelcontextprotocol/server-playwright"]
    env := [] }

/-- The four capability profiles solution 1's `route_task` can select,
one per if/elif branch. -/
inductive Profile
  | browser
  | filesystem
  | database
  | general
deriving DecidableEq, Repr

/-- The branch selected by `route_task`'s if/elif chain on
`task_lower = task_description.lower()`, in source order:
browser keywords, then filesystem, then database, then the default. -/
def route_profile (task_description : String) : Profile :=
  let task_lower := pyLower task_description
  if pyIn "browser" task_lower || pyIn "web scraping" task_lower then
    Profile.browser
  else if pyIn "file" task_lower || pyIn "directory" task_lower then
    Profile.filesystem
  else if pyIn "database" task_lower || pyIn "sql" task_lower then
    Profile.database
  else
    Profile.general

/-- The `ClaudeAgentOptions` solution 1's `route_task` constructs in the
branch for each profile. -/
def route_options : Profile → ClaudeAgentOptions
  | Profile.browser =>
    { mcp_servers := [("playwright", playwright_config)]
      system_prompt := some "You are a browser automation specialist." }
  | Profile.filesystem =>
    { mcp_servers := [("filesystem", filesystem_config)]
      system_prompt := some "You are a file operations specialist." }
  | Profile.database =>
    { mcp_servers := [("database", database_config)]
      system_prompt := some "You are a database specialist." }
  | Profile.general =>
    { mcp_servers := []
      allowed_tools := some ["Read", "Write", "Bash"] }

/-- One event of the runtime's response stream: the async generator either
yields a message or raises a stream error. -/
inductive StreamItem
  | msg (m : String)
  | raiseErr (e : String)
deriving DecidableEq, Repr

/-- The loop of `[msg async for msg in client.receive_response()]`: each
yielded message is appended to the accumulator; a raised error propagates
and the accumulator is discarded. -/
def collectLoop : List StreamItem → List String → Except String (List String)
  | [], acc => Except.ok acc.reverse
  | StreamItem.msg m :: rest, acc => collectLoop rest (m :: acc)
  | StreamItem.raiseErr e :: _, _ => Except.error e

/-- Embedding of `[msg async for msg in client.receive_response()]` run
against a given stream of events. -/
def collectResponse (events : List StreamItem) : Except String (List String) :=
  collectLoop events []

/-- Solution 1's `route_task`, parametrised by the response stream the
external runtime produces inside the selected session: the pair of the
`ClaudeAgentOptions` the session is opened with and the outcome of
collecting the response. -/
def route_task (task_description : String) (events : List StreamItem) :
    ClaudeAgentOptions × Except String (List String) :=
  (route_options (route_profile task_description), collectResponse events)

/-- The dict returned by `AgentOrchestrator.analyze_task`: its exact keys
`category`, `complexity`, `tools`. -/
structure TaskAnalysis where
  category : String
  complexity : String
  tools : List String
deriving DecidableEq, Repr

/-- `AgentOrchestrator.analyze_task`, clause for clause. -/
def analyze_task (task_description : String) : TaskAnalysis :=
  let lower := pyLower task_description
  if pyIn "browser" lower || pyIn "web" lower then
    { category := "browser", complexity := "complex", tools := ["playwright"] }
  else if pyIn "file" lower || pyIn "directory" lower then
    { category := "filesystem", complexity := "simple", tools := ["filesystem"] }
  else if pyIn "database" lower || pyIn "sql" lower then
    { category := "database", complexity := "complex", tools := ["database"] }
  else
    { category := "general", complexity := "simple", tools := [] }

/-- The `ClaudeAgentOptions` built by `AgentOrchestrator.execute_task`'s
dispatch on `task_type["category"]`: `_execute_browser_task`,
`_execute_filesystem_task`, `_execute_database_task`,
`_execute_general_task`. -/
def execute_options (category : String) : ClaudeAgentOptions :=
  if category == "browser" then
    { mcp_servers := [("playwright", browser_config)]
      system_prompt := some "You are a browser automation expert." }
  else if category == "filesystem" then
    { mcp_servers := [("filesystem", filesystem_config)]
      system_prompt := some "You are a file operations expert." }
  else if category == "database" then
    { mcp_servers := [("database", database_config)]
      system_prompt := some "You are a database expert." }
  else
    { mcp_servers := []
      allowed_tools := some ["Read", "Write", "Bash", "Grep", "Glob"]
      system_prompt := some "You are a helpful assistant." }

/-- `AgentOrchestrator.execute_task`, parametrised by the response stream:
analyzes the task, opens one session with the category's options and
collects the response. -/
def execute_task (task_description : String) (events : List StreamItem) :
    ClaudeAgentOptions × Except String (List String) :=
  (execute_options (analyze_task task_description).category, collectResponse events)

/-- `AgentOrchestrator.execute_multiple_tasks`: a sequential loop
appending each task's result; an error raised by any `execute_task`
propagates and the results list built so far is discarded.  Each task is
paired with the stream its own session produces. -/
def execute_multiple_tasks : List (String × List StreamItem) → Except String (List (List String))
  | [] => Except.ok []
  | (t, ev) :: rest =>
    match (execute_task t ev).2 with
    | Except.error e => Except.error e
    | Except.ok r =>
      match execute_multiple_tasks rest with
      | Except.error e => Except.error e
      | Except.ok rs => Except.ok (r :: rs)

/-! ## Helper lemmas -/

/-- `takesLead` tests exactly the list-prefix relation. -/
theorem takesLead_iff (a b : List Char) : takesLead a b = true ↔ a <+: b := by
  induction a generalizing b with
  | nil => simp [takesLead]
  | cons x xs ih =>
    cases b with
    | nil => simp [takesLead]
    | cons y ys =>
      simp only [takesLead, Bool.and_eq_true, beq_iff_eq, ih, List.cons_prefix_cons]

/-- `subIn` tests exactly the contiguous-sublist (infix) relation, so the
embedded `pyIn` agrees with Python's substring semantics of `in`. -/
theorem subIn_iff (nee hay : List Char) : subIn nee hay = true ↔ nee <:+: hay := by
  induction hay with
  | nil => simp [subIn, List.isEmpty_iff]
  | cons h t ih => simp [subIn, takesLead_iff, ih, List.infix_cons_iff]

/-- Substring containment is transitive: if `a` occurs in `b` and `b`
occurs in `c` then `a` occurs in `c`. -/
theorem pyIn_trans (a b c : String) (h1 : pyIn a b = true) (h2 : pyIn b c = true) :
    pyIn a c = true := by
  simp only [pyIn, subIn_iff] at *
  exact h1.trans h2

/-- Collecting a stream that only yields messages returns them all, after
the accumulator, in arrival order. -/
theorem collectLoop_msgs (ms acc : List String) :
    collectLoop (ms.map StreamItem.msg) acc = Except.ok (acc.reverse ++ ms) := by
  induction ms generalizing acc with
  | nil => simp [collectLoop]
  | cons m rest ih => simp [collectLoop, ih]

/-- Collecting a stream that raises after yielding `ms` propagates the
error and discards the messages accumulated so far. -/
theorem collectLoop_fail (ms : List String) (acc : List String) (e : String)
    (post : List StreamItem) :
    collectLoop (ms.map StreamItem.msg ++ StreamItem.raiseErr e :: post) acc =
      Except.error e := by
  induction ms generalizing acc with
  | nil => simp [collectLoop]
  | cons m rest ih => simp [collectLoop, ih]

/-- `analyze_task` always returns one of its four literal records. -/
theorem analyze_task_cases (t : String) :
    analyze_task t = { category := "browser", complexity := "complex", tools := ["playwright"] }
  ∨ analyze_task t = { category := "filesystem", complexity := "simple", tools := ["filesystem"] }
  ∨ analyze_task t = { category := "database", complexity := "complex", tools := ["database"] }
  ∨ analyze_task t = { category := "general", complexity := "simple", tools := [] } := by
  simp only [analyze_task]
  split_ifs <;> simp

/-! ## Claim theorems -/

/-- C1 counterexample: classifying `"Scrape product data from example.com"`
does not select the Browser profile — neither `route_task`'s chain nor
`analyze_task` matches any browser keyword in it — and the session options
contain no tool-server at all, in particular not the playwright one. -/
theorem c1_spec_counterexample :
    route_profile "Scrape product data from example.com" ≠ Profile.browser
  ∧ (analyze_task "Scrape product data from example.com").category ≠ "browser"
  ∧ (route_task "Scrape product data from example.com" []).1.mcp_servers = []
  ∧ (execute_task "Scrape product data from example.com" []).1.mcp_servers = [] := by
  refine ⟨by decide, by decide, by decide, by decide⟩

/-- C1 amended: classifying `"Scrape product data from example.com"`
selects the General profile (the string contains none of the keywords
browser, web scraping, web, file, directory, database, sql), and the
resulting session is configured with zero tool-servers and the general
local-tool allow-list, whatever the runtime's response stream is. -/
theorem c1_spec_amended (ev : List StreamItem) :
    route_profile "Scrape product data from example.com" = Profile.general
  ∧ (route_task "Scrape product data from example.com" ev).1 =
      { mcp_servers := [], allowed_tools := some ["Read", "Write", "Bash"] }
  ∧ (analyze_task "Scrape product data from example.com").category = "general"
  ∧ (execute_task "Scrape product data from example.com" ev).1 =
      { mcp_servers := []
        system_prompt := some "You are a helpful assistant."
        allowed_tools := some ["Read", "Write", "Bash", "Grep", "Glob"] } := by
  refine ⟨by decide, by rfl, by decide, by rfl⟩

/-- C2 counterexample: classifying `"Query users table for active
accounts"` does not select the Database profile — the string contains
neither "database" nor "sql" — and the session options contain no
tool-server, in particular not the database one. -/
theorem c2_spec_counterexample :
    route_profile "Query users table for active accounts" ≠ Profile.database
  ∧ (analyze_task "Query users table for active accounts").category ≠ "database"
  ∧ (route_task "Query users table for active accounts" []).1.mcp_servers = []
  ∧ (execute_task "Query users table for active accounts" []).1.mcp_servers = [] := by
  refine ⟨by decide, by decide, by decide, by decide⟩

/-- C2 amended: classifying `"Query users table for active accounts"`
selects the General profile, and the resulting session is configured with
zero tool-servers and the general local-tool allow-list. -/
theorem c2_spec_amended (ev : List StreamItem) :
    route_profile "Query users table for active accounts" = Profile.general
  ∧ (route_task "Query users table for active accounts" ev).1 =
      { mcp_servers := [], allowed_tools := some ["Read", "Write", "Bash"] }
  ∧ (analyze_task "Query users table for active accounts").category = "general"
  ∧ (execute_task "Query users table for active accounts" ev).1 =
      { mcp_servers := []
        system_prompt := some "You are a helpful assistant."
        allowed_tools := some ["Read", "Write", "Bash", "Grep", "Glob"] } := by
  refine ⟨by decide, by rfl, by decide, by rfl⟩

/-- C3: for every task, the session `execute_task` opens carries exactly
the selected profile's tool-server descriptors and nothing more — the
server table is the profile's own single descriptor (or empty for
general), so the server names are exactly the analysis's required tools
list — profiles other than general pass no allow-list, and the General
profile (selected e.g. for `"Explain what MCP servers are"`) gets zero
tool-servers and the fixed local-tool allow-list
`["Read", "Write", "Bash", "Grep", "Glob"]`. -/
theorem c3_exec_exactly_profile_servers (t : String) (ev : List StreamItem) :
    ((execute_task t ev).1.mcp_servers =
      (if (analyze_task t).category = "browser" then [("playwright", browser_config)]
       else if (analyze_task t).category = "filesystem" then [("filesystem", filesystem_config)]
       else if (analyze_task t).category = "database" then [("database", database_config)]
       else []))
  ∧ ((execute_task t ev).1.mcp_servers.map Prod.fst = (analyze_task t).tools)
  ∧ ((analyze_task t).category ≠ "general" → (execute_task t ev).1.allowed_tools = none)
  ∧ ((analyze_task t).category = "general" →
      (execute_task t ev).1 =
        { mcp_servers := []
          system_prompt := some "You are a helpful assistant."
          allowed_tools := some ["Read", "Write", "Bash", "Grep", "Glob"] })
  ∧ (analyze_task "Explain what MCP servers are").category = "general" := by
  rcases analyze_task_cases t with h | h | h | h <;>
    refine ⟨?_, ?_, ?_, ?_, by decide⟩ <;>
    simp [execute_task, execute_options, h]

/-- C3 witness at the concrete input `"Explain what MCP servers are"`. -/
theorem c3_exec_exactly_profile_servers_witness :
    (execute_task "Explain what MCP servers are" []).1 =
      { mcp_servers := []
        system_prompt := some "You are a helpful assistant."
        allowed_tools := some ["Read", "Write", "Bash", "Grep", "Glob"] }
  ∧ (execute_task "Explain what MCP servers are" []).1.mcp_servers.map Prod.fst =
      (analyze_task "Explain what MCP servers are").tools := by
  have h := c3_exec_exactly_profile_servers "Explain what MCP servers are" []
  exact ⟨h.2.2.2.1 h.2.2.2.2, h.2.1⟩

/-- C4: any task string whose lower-casing contains "browser" or
"web scraping" is classified Browser, by `route_task`'s chain (its first
branch) and by `analyze_task` (since "web scraping" contains "web"),
regardless of any other keywords in the string. -/
theorem c4_browser_keywords_select_browser (t : String)
    (h : pyIn "browser" (pyLower t) = true ∨ pyIn "web scraping" (pyLower t) = true) :
    route_profile t = Profile.browser ∧ (analyze_task t).category = "browser" := by
  have hb : (pyIn "browser" (pyLower t) || pyIn "web scraping" (pyLower t)) = true := by
    rcases h with h | h <;> simp [h]
  have hw : (pyIn "browser" (pyLower t) || pyIn "web" (pyLower t)) = true := by
    rcases h with h | h
    · simp [h]
    · have hweb : pyIn "web" (pyLower t) = true :=
        pyIn_trans "web" "web scraping" (pyLower t) (by decide) h
      simp [hweb]
  constructor
  · simp [route_profile, hb]
  · simp [analyze_task, hw]

/-- C4 witness: `"Open the BROWSER and also touch a file and the sql
database"` contains "browser" case-insensitively together with lower
priority keywords, and is still classified Browser by both dispatchers. -/
theorem c4_browser_keywords_select_browser_witness :
    route_profile "Open the BROWSER and also touch a file and the sql database" =
      Profile.browser
  ∧ (analyze_task "Open the BROWSER and also touch a file and the sql database").category =
      "browser" :=
  c4_browser_keywords_select_browser
    "Open the BROWSER and also touch a file and the sql database" (Or.inl (by decide))

/-- C5: a task string whose lower-casing contains none of the recognized
keywords (browser, web scraping, web, file, directory, database, sql) is
classified General by both dispatchers; the empty string is classified
General; and classification is total — it always returns one of the four
profiles, on every input. -/
theorem c5_no_keyword_gives_general (t : String)
    (h : ∀ k ∈ ["browser", "web scraping", "web", "file", "directory", "database", "sql"],
      pyIn k (pyLower t) = false) :
    route_profile t = Profile.general
  ∧ (analyze_task t).category = "general"
  ∧ route_profile "" = Profile.general
  ∧ (analyze_task "").category = "general"
  ∧ (∀ s : String, route_profile s = Profile.browser ∨ route_profile s = Profile.filesystem
      ∨ route_profile s = Profile.database ∨ route_profile s = Profile.general) := by
  have hb := h "browser" (by simp)
  have hws := h "web scraping" (by simp)
  have hw := h "web" (by simp)
  have hf := h "file" (by simp)
  have hdir := h "directory" (by simp)
  have hdb := h "database" (by simp)
  have hsql := h "sql" (by simp)
  refine ⟨?_, ?_, by decide, by decide, ?_⟩
  · simp [route_profile, hb, hws, hf, hdir, hdb, hsql]
  · simp [analyze_task, hb, hw, hf, hdir, hdb, hsql]
  · intro s
    cases hq : route_profile s <;> simp

/-- C5 witness at the empty string. -/
theorem c5_no_keyword_gives_general_witness :
    route_profile "" = Profile.general ∧ (analyze_task "").category = "general" := by
  have h := c5_no_keyword_gives_general "" (by decide)
  exact ⟨h.1, h.2.1⟩

/-- C6: both dispatchers classify by the first matching category in the
fixed source order browser, filesystem, database, general.  Solution 1's
`route_task` profile and Solution 4's `analyze_task` category are each
fully characterised by their three keyword tests in that priority order,
and in particular a string matching both a filesystem keyword and a
database keyword (and no higher-priority browser keyword) is classified
Filesystem by both. -/
theorem c6_priority_order (t : String) :
    (route_profile t =
      if pyIn "browser" (pyLower t) || pyIn "web scraping" (pyLower t) then Profile.browser
      else if pyIn "file" (pyLower t) || pyIn "directory" (pyLower t) then Profile.filesystem
      else if pyIn "database" (pyLower t) || pyIn "sql" (pyLower t) then Profile.database
      else Profile.general)
  ∧ ((pyIn "file" (pyLower t) || pyIn "directory" (pyLower t)) = true →
     (pyIn "database" (pyLower t) || pyIn "sql" (pyLower t)) = true →
     (pyIn "browser" (pyLower t) || pyIn "web scraping" (pyLower t)) = false →
     route_profile t = Profile.filesystem)
  ∧ ((analyze_task t).category =
      if pyIn "browser" (pyLower t) || pyIn "web" (pyLower t) then "browser"
      else if pyIn "file" (pyLower t) || pyIn "directory" (pyLower t) then "filesystem"
      else if pyIn "database" (pyLower t) || pyIn "sql" (pyLower t) then "database"
      else "general")
  ∧ ((pyIn "file" (pyLower t) || pyIn "directory" (pyLower t)) = true →
     (pyIn "database" (pyLower t) || pyIn "sql" (pyLower t)) = true →
     (pyIn "browser" (pyLower t) || pyIn "web" (pyLower t)) = false →
     (analyze_task t).category = "filesystem") := by
  refine ⟨rfl, fun hf _hd hb => ?_, ?_, fun hf _hd hb => ?_⟩
  · simp [route_profile, hb, hf]
  · simp only [analyze_task]
    split_ifs <;> rfl
  · simp [analyze_task, hb, hf]

/-- C6 witness: `"move file into sql database"` matches a filesystem
keyword and a database keyword and no browser keyword, and is classified
Filesystem by both dispatchers. -/
theorem c6_priority_order_witness :
    route_profile "move file into sql database" = Profile.filesystem
  ∧ (analyze_task "move file into sql database").category = "filesystem" := by
  have h := c6_priority_order "move file into sql database"
  exact ⟨h.2.1 (by decide) (by decide) (by decide),
    h.2.2.2 (by decide) (by decide) (by decide)⟩

/-- C7: when the response stream raises after yielding `pre`, both
`route_task` and `execute_task` surface exactly that error to the caller:
the outcome is `Except.error e`, carrying none of the `pre` messages
already collected, and the options component is still the one determined
by the initial classification — no retry, no fallback profile. -/
theorem c7_stream_failure_discards_partial (t : String) (pre : List String) (e : String)
    (post : List StreamItem) :
    (route_task t (pre.map StreamItem.msg ++ StreamItem.raiseErr e :: post)).2 =
      Except.error e
  ∧ (execute_task t (pre.map StreamItem.msg ++ StreamItem.raiseErr e :: post)).2 =
      Except.error e
  ∧ (route_task t (pre.map StreamItem.msg ++ StreamItem.raiseErr e :: post)).1 =
      route_options (route_profile t)
  ∧ (execute_task t (pre.map StreamItem.msg ++ StreamItem.raiseErr e :: post)).1 =
      execute_options (analyze_task t).category := by
  refine ⟨?_, ?_, rfl, rfl⟩ <;>
    simp [route_task, execute_task, collectResponse, collectLoop_fail]

/-- C8: `execute_multiple_tasks` processes its task list sequentially in
input order.  When every session's stream only yields messages, it returns
exactly one result per task, in input order, each the message sequence of
that task's own stream.  When some task's stream raises — after any run of
fully successful tasks — the error propagates and aborts the whole batch:
the outcome is `Except.error e`, with no results for any task. -/
theorem c8_batch_sequential :
    (∀ ps : List (String × List String),
      execute_multiple_tasks (ps.map fun p => (p.1, p.2.map StreamItem.msg)) =
        Except.ok (ps.map fun p => p.2))
  ∧ (∀ pre : List (String × List String), ∀ t : String, ∀ ms : List String, ∀ e : String,
      ∀ post : List StreamItem, ∀ rest : List (String × List StreamItem),
      execute_multiple_tasks ((pre.map fun p => (p.1, p.2.map StreamItem.msg)) ++
          (t, ms.map StreamItem.msg ++ StreamItem.raiseErr e :: post) :: rest) =
        Except.error e) := by
  constructor
  · intro ps
    induction ps with
    | nil => rfl
    | cons p rest ih =>
      simp [execute_multiple_tasks, execute_task, collectResponse, collectLoop_msgs, ih]
  · intro pre t ms e post rest
    induction pre with
    | nil => simp [execute_multiple_tasks, execute_task, collectResponse, collectLoop_fail]
    | cons q qre ih =>
      simp [execute_multiple_tasks, execute_task, collectResponse, collectLoop_msgs] at ih ⊢
      simp [ih]

/-- C9: the two dispatchers disagree: any task string containing "web" but
none of "web scraping", "browser", "file", "directory", "database", "sql"
is routed to the General configuration by solution 1's `route_task`, while
solution 4's `analyze_task` categorises it as "browser" (its keyword list
has "web" where solution 1 has "web scraping"). -/
theorem c9_dispatchers_disagree (t : String)
    (h1 : pyIn "web" (pyLower t) = true)
    (h2 : pyIn "browser" (pyLower t) = false)
    (h3 : pyIn "web scraping" (pyLower t) = false)
    (h4 : pyIn "file" (pyLower t) = false)
    (h5 : pyIn "directory" (pyLower t) = false)
    (h6 : pyIn "database" (pyLower t) = false)
    (h7 : pyIn "sql" (pyLower t) = false) :
    route_profile t = Profile.general ∧ (analyze_task t).category = "browser" := by
  constructor
  · simp [route_profile, h2, h3, h4, h5, h6, h7]
  · simp [analyze_task, h1]

/-- C9 witness: `"visit the website"` contains "web" and none of the other
keywords; `route_task` routes it to General, `analyze_task` says browser. -/
theorem c9_dispatchers_disagree_witness :
    route_profile "visit the website" = Profile.general
  ∧ (analyze_task "visit the website").category = "browser" :=
  c9_dispatchers_disagree "visit the website" (by decide) (by decide) (by decide)
    (by decide) (by decide) (by decide) (by decide)

/-- C10: on every input, `analyze_task` returns a record with exactly the
fields category, complexity and tools, in which the tools list is fully
determined by the category (browser ↦ playwright, filesystem ↦ filesystem,
database ↦ database, general ↦ nothing), the complexity is "complex"
exactly for the browser and database categories and "simple" otherwise,
and the category is one of the four known ones. -/
theorem c10_analysis_shape (t : String) :
    ((analyze_task t).tools =
      if (analyze_task t).category = "browser" then ["playwright"]
      else if (analyze_task t).category = "filesystem" then ["filesystem"]
      else if (analyze_task t).category = "database" then ["database"]
      else [])
  ∧ ((analyze_task t).complexity = "complex" ↔
      ((analyze_task t).category = "browser" ∨ (analyze_task t).category = "database"))
  ∧ ((analyze_task t).complexity = "complex" ∨ (analyze_task t).complexity = "simple")
  ∧ ((analyze_task t).category = "browser" ∨ (analyze_task t).category = "filesystem"
     ∨ (analyze_task t).category = "database" ∨ (analyze_task t).category = "general") := by
  rcases analyze_task_cases t with h | h | h | h <;> rw [h] <;> decide
